import Mathlib

/-!
Shallow embedding of the `WorkflowLogger` n8n node (file `WorkflowLogger.node.ts`):
the aggregation loop of `WorkflowLogger.execute`, the mode/identifier resolution,
the result assembly with the `failOnError` option, and the row handed to the
MySQL sink by `insertLog`.

JavaScript conventions modelled explicitly:
* optional / possibly-`undefined` fields are `Option`;
* `x || d` on a number is `Option.getD` (a present `0` and the default agree);
* `x || d` on a string falls back on `none` and on the empty string (`jsOr`);
* `x ?? d` is plain `Option.getD`;
* `parseInt(s, 10)` is `parseIntJS` (`none` models `NaN`);
* a JS object used as a map (`Record<string, number>`) is an association list
  with unique keys, where assignment updates in place or appends a new key.
-/

/-- Arbitrary JSON values, as carried by the `any[]` transaction items. -/
inductive Json where
  | null : Json
  | bool (b : Bool) : Json
  | num (n : Int) : Json
  | str (s : String) : Json
  | arr (xs : List Json) : Json
  | obj (fs : List (String × Json)) : Json
deriving Repr

/-- One character of `JSON.stringify`'s string escaping. -/
def jsonEscapeChar (c : Char) : String :=
  if c = '\\' then "\\\\"
  else if c = '\"' then "\\\""
  else if c = '\n' then "\\n"
  else if c = '\r' then "\\r"
  else if c = '\t' then "\\t"
  else String.singleton c

/-- `JSON.stringify` of a string: quoted and escaped. -/
def jsonQuote (s : String) : String :=
  "\"" ++ String.join (s.data.map jsonEscapeChar) ++ "\""

mutual
/-- `JSON.stringify`, modelled for the `Json` values above. -/
def Json.stringify : Json → String
  | .null => "null"
  | .bool b => if b then "true" else "false"
  | .num n => toString n
  | .str s => jsonQuote s
  | .arr xs => "[" ++ Json.stringifyArr xs ++ "]"
  | .obj fs => "\x7b" ++ Json.stringifyObj fs ++ "\x7d"

/-- Comma-separated serialization of the elements of a JSON array. -/
def Json.stringifyArr : List Json → String
  | [] => ""
  | [j] => Json.stringify j
  | j :: js => Json.stringify j ++ "," ++ Json.stringifyArr js

/-- Comma-separated serialization of the fields of a JSON object. -/
def Json.stringifyObj : List (String × Json) → String
  | [] => ""
  | [(k, v)] => jsonQuote k ++ ":" ++ Json.stringify v
  | (k, v) :: fs => jsonQuote k ++ ":" ++ Json.stringify v ++ "," ++ Json.stringifyObj fs
end

/-- `interface IExecution` of the source. -/
structure IExecution where
  mode : Option String
  script_id : Option String
deriving Repr, DecidableEq

/-- `interface ISummary` of the source. -/
structure ISummary where
  total_input : Option Int
  new_items : Option Int
  exact_duplicates : Option Int
  updated_items : Option Int
  event_summary : Option (List (String × Int))
  failed_items : Option Int
deriving Repr, DecidableEq

/-- The `details.sent_items` object (`details` is typed `any` in the source). -/
structure ISentItems where
  items : Option (List Json)
deriving Repr

/-- The `details` object of one input item (typed `any` in the source). -/
structure IDetails where
  sent_items : Option ISentItems
deriving Repr

/-- One input item's `json` payload: the three optional sections the loop reads. -/
structure Report where
  execution : Option IExecution
  summary : Option ISummary
  details : Option IDetails
deriving Repr

/-- `(input.summary || {})`: a missing section behaves as all-fields-absent. -/
def summaryOf (r : Report) : ISummary :=
  r.summary.getD ⟨none, none, none, none, none, none⟩

/-- `(input.execution || {})`. -/
def execOf (r : Report) : IExecution :=
  r.execution.getD ⟨none, none⟩

/-- `(input.details || {})`. -/
def detailsOf (r : Report) : IDetails :=
  r.details.getD ⟨none⟩

/-- JS `parseInt(s, 10)`: skip leading whitespace, optional sign, longest
digit prefix; `none` models `NaN` (no digits found). -/
def parseIntJS (s : String) : Option Int :=
  let cs := s.data.dropWhile (fun c => c = ' ' ∨ c = '\t' ∨ c = '\n' ∨ c = '\r')
  let signed : Bool × List Char :=
    match cs with
    | '-' :: rest => (true, rest)
    | '+' :: rest => (false, rest)
    | _ => (false, cs)
  let digits := signed.2.takeWhile Char.isDigit
  if digits.isEmpty then none
  else
    let n : Nat := digits.foldl (fun acc c => acc * 10 + (c.toNat - '0'.toNat)) 0
    some (if signed.1 then -(n : Int) else (n : Int))

/-- `execution.script_id ? parseInt(execution.script_id, 10) : null`:
`none` models both `null` (field absent or empty string, both falsy) and
`NaN` (present but not parseable). -/
def scriptIdOf (e : IExecution) : Option Int :=
  match e.script_id with
  | none => none
  | some s => if s = "" then none else parseIntJS s

/-- JS `x || d` for an optional string: the default also replaces `""`. -/
def jsOr (o : Option String) (d : String) : String :=
  match o with
  | some s => if s = "" then d else s
  | none => d

/-- First-match lookup in the association-list model of a JS object. -/
def lookupES (m : List (String × Int)) (k : String) : Option Int :=
  match m with
  | [] => none
  | (k', v) :: rest => if k' = k then some v else lookupES rest k

/-- `m[k] || 0` (a stored `0` and the default agree). -/
def getES (m : List (String × Int)) (k : String) : Int :=
  (lookupES m k).getD 0

/-- JS object assignment `m[k] = v`: update the first binding in place,
or append the key at the end if new. -/
def setES (m : List (String × Int)) (k : String) (v : Int) : List (String × Int) :=
  match m with
  | [] => [(k, v)]
  | (k', v') :: rest => if k' = k then (k', v) :: rest else (k', v') :: setES rest k v

/-- The inner merge loop: for each `[event, count]` of this report's
`event_summary`, `merged[event] = (merged[event] || 0) + count`. -/
def mergeES (m : List (String × Int)) (entries : List (String × Int)) : List (String × Int) :=
  entries.foldl (fun acc p => setES acc p.1 (getES acc p.1 + p.2)) m

/-- The mutable accumulator variables of `WorkflowLogger.execute`'s loop. -/
structure AggState where
  totalItemsProcessed : Int
  totalItemsNew : Int
  totalItemsDuplicates : Int
  totalItemsUpdated : Int
  allTransactionItems : List Json
  mergedEventSummary : List (String × Int)
  hasFailures : Bool
  firstExecution : Option IExecution
  scriptId : Option Int
deriving Repr

/-- The accumulators' initial values (lines 127-135 of the source). -/
def initState : AggState :=
  ⟨0, 0, 0, 0, [], [], false, none, none⟩

/-- The body of the aggregation loop minus the `i == 0` block: add the four
metrics (`|| 0`), latch `hasFailures` on `(failed_items ?? 0) > 0`, merge
`event_summary`, and concat `details.sent_items?.items || []`. -/
def stepMetrics (st : AggState) (r : Report) : AggState :=
  let summary := summaryOf r
  let details := detailsOf r
  { st with
    totalItemsProcessed := st.totalItemsProcessed + summary.total_input.getD 0,
    totalItemsNew := st.totalItemsNew + summary.new_items.getD 0,
    totalItemsDuplicates := st.totalItemsDuplicates + summary.exact_duplicates.getD 0,
    totalItemsUpdated := st.totalItemsUpdated + summary.updated_items.getD 0,
    hasFailures := st.hasFailures || decide (summary.failed_items.getD 0 > 0),
    mergedEventSummary :=
      match summary.event_summary with
      | some es => mergeES st.mergedEventSummary es
      | none => st.mergedEventSummary,
    allTransactionItems :=
      st.allTransactionItems ++ ((details.sent_items.bind ISentItems.items).getD []) }

/-- The whole loop (lines 138-172): on `i == 0` capture `firstExecution` and
extract `scriptId`, then aggregate every report's metrics in order. -/
def aggregate (items : List Report) : AggState :=
  match items with
  | [] => initState
  | r :: rest =>
    let st0 := stepMetrics
      { initState with
        firstExecution := some (execOf r),
        scriptId := scriptIdOf (execOf r) } r
    rest.foldl stepMetrics st0


/-- The `options` collection parameter (both default to `false`). -/
structure NodeOptions where
  failOnError : Bool
  verboseLogging : Bool
deriving Repr, DecidableEq

/-- The node parameters read at the top of `execute`. -/
structure NodeConfig where
  database : String
  table : String
  executionMode : String
  options : NodeOptions
deriving Repr, DecidableEq

/-- Ambient values `execute` reads from the host: `this.getMode()`,
`this.getWorkflow().name`, and the clock used for `logged_at`. -/
structure EnvInfo where
  workflowMode : String
  workflowName : Option String
  now : String
deriving Repr, DecidableEq

/-- The two errors the `try` block of `execute` can catch: the
`NodeOperationError` thrown when `scriptId` is falsy, and any error
thrown by `insertLog` (carrying its message). -/
inductive NodeError where
  | missingId : NodeError
  | sinkError (msg : String) : NodeError
deriving Repr, DecidableEq

/-- `error.message` of a caught `NodeError`. -/
def NodeError.message : NodeError → String
  | .missingId =>
    "Could not extract script_id from input data. Make sure this node receives data with execution information."
  | .sinkError m => m

/-- `interface ILogData` of the source: the aggregated row. -/
structure ILogData where
  script_id : Int
  execution_mode : String
  execution_type : String
  workflow_name : String
  status : String
  items_processed : Int
  items_new : Int
  items_duplicates : Int
  items_updated : Int
  event_summary : String
  full_details : String
deriving Repr, DecidableEq

/-- The success-shaped output json (lines 227-236). -/
structure SuccessOut where
  logged_at : String
  script_id : Int
  batches_aggregated : Nat
  log_data : ILogData
deriving Repr, DecidableEq

/-- The single output item of one invocation: the success json or the
failure json `{success: false, error, script_id}`. -/
inductive ExecResult where
  | success (s : SuccessOut) : ExecResult
  | failure (err : NodeError) (script_id : Option Int) : ExecResult
deriving Repr, DecidableEq

/-- Equality of `Except` outcomes is decidable componentwise. -/
instance exceptDecEq {e a : Type} [DecidableEq e] [DecidableEq a] : DecidableEq (Except e a) :=
  fun x y =>
    match x, y with
    | .error u, .error v =>
      if h : u = v then isTrue (h ▸ rfl) else isFalse (fun hh => h (Except.error.inj hh))
    | .ok u, .ok v =>
      if h : u = v then isTrue (h ▸ rfl) else isFalse (fun hh => h (Except.ok.inj hh))
    | .error _, .ok _ => isFalse (fun hh => Except.noConfusion hh)
    | .ok _, .error _ => isFalse (fun hh => Except.noConfusion hh)

/-- The observable outcome of one `execute` invocation. `outcome = .error e`
means the invocation re-raises: a `NodeOperationError` whose message is
`"Failed to log execution: " ++ e.message`. `rowsSent` lists the rows handed
to `insertLog` (at most one; listed even if the sink then fails, since the
insert was attempted). -/
structure ExecOut where
  outcome : Except NodeError ExecResult
  rowsSent : List ILogData
deriving Repr, DecidableEq

/-- Lines 185-189: `let mode = executionMode; if (mode === 'auto' &&
firstExecution) mode = firstExecution.mode || 'regular';`. -/
def resolveMode (executionMode : String) (firstExecution : Option IExecution) : String :=
  if executionMode = "auto" then
    match firstExecution with
    | some fe => jsOr fe.mode "regular"
    | none => executionMode
  else executionMode

/-- The row construction of lines 202-215, given the loop's final state. -/
def buildLogData (cfg : NodeConfig) (env : EnvInfo) (st : AggState) (sid : Int) : ILogData :=
  { script_id := sid,
    execution_mode := resolveMode cfg.executionMode st.firstExecution,
    execution_type := if env.workflowMode = "manual" then "manual" else "scheduled",
    workflow_name := jsOr env.workflowName "Unknown",
    status := if st.hasFailures then "failed" else "success",
    items_processed := st.totalItemsProcessed,
    items_new := st.totalItemsNew,
    items_duplicates := st.totalItemsDuplicates,
    items_updated := st.totalItemsUpdated,
    event_summary := Json.stringify (Json.obj (st.mergedEventSummary.map (fun p => (p.1, Json.num p.2)))),
    full_details := Json.stringify (Json.arr st.allTransactionItems) }

/-- `WorkflowLogger.execute`: aggregate, validate `scriptId` with the JS
truthiness test `!scriptId` (so `null`, `NaN` and `0` all fail), build the
row, attempt the insert (`sres` is the sink's outcome), and assemble the
result under the `failOnError` option. -/
def execute (cfg : NodeConfig) (env : EnvInfo) (sres : Except String Unit)
    (items : List Report) : ExecOut :=
  let st := aggregate items
  let onError : NodeError → List ILogData → ExecOut := fun e rows =>
    if cfg.options.failOnError then ⟨.error e, rows⟩
    else ⟨.ok (.failure e st.scriptId), rows⟩
  match st.scriptId with
  | none => onError .missingId []
  | some sid =>
    if sid = 0 then onError .missingId []
    else
      let logData := buildLogData cfg env st sid
      match sres with
      | .ok _ =>
        ⟨.ok (.success ⟨env.now, sid, items.length, logData⟩), [logData]⟩
      | .error m => onError (.sinkError m) [logData]

/-- A database cell of the insert's parameter list. -/
inductive Cell where
  | int (n : Int) : Cell
  | str (s : String) : Cell
deriving Repr, DecidableEq

/-- The column list of `insertLog`'s INSERT statement (lines 279-286). -/
def insertColumns : List String :=
  ["script_id", "execution_mode", "execution_type", "workflow_name", "status",
   "items_processed", "items_new", "items_duplicates", "items_updated",
   "event_summary", "full_details"]

/-- The parameter list bound to the placeholders (lines 288-300). -/
def insertRowParams (d : ILogData) : List Cell :=
  [.int d.script_id, .str d.execution_mode, .str d.execution_type,
   .str d.workflow_name, .str d.status, .int d.items_processed,
   .int d.items_new, .int d.items_duplicates, .int d.items_updated,
   .str d.event_summary, .str d.full_details]

/-! ### Per-report readings, as the loop body sees them -/

/-- `summary.total_input || 0` of one report. -/
def procOf (r : Report) : Int := (summaryOf r).total_input.getD 0

/-- `summary.new_items || 0` of one report. -/
def newOf (r : Report) : Int := (summaryOf r).new_items.getD 0

/-- `summary.exact_duplicates || 0` of one report. -/
def dupOf (r : Report) : Int := (summaryOf r).exact_duplicates.getD 0

/-- `summary.updated_items || 0` of one report. -/
def updOf (r : Report) : Int := (summaryOf r).updated_items.getD 0

/-- `summary.failed_items ?? 0` of one report. -/
def failedOf (r : Report) : Int := (summaryOf r).failed_items.getD 0

/-- `details.sent_items?.items || []` of one report. -/
def itemsOf (r : Report) : List Json :=
  ((detailsOf r).sent_items.bind ISentItems.items).getD []

/-- The entries of one report's `event_summary` (absent map = no entries). -/
def esEntriesOf (r : Report) : List (String × Int) :=
  (summaryOf r).event_summary.getD []

/-- One report's count for event `k` (a report lacking the key gives 0). -/
def reportES (r : Report) (k : String) : Int := getES (esEntriesOf r) k

/-- Total of the values stored at key `k` in an entry list. -/
def sumAtKey (es : List (String × Int)) (k : String) : Int :=
  ((es.filter (fun p => p.1 = k)).map Prod.snd).sum

/-- The identifier the loop extracts: from the first report, if any. -/
def firstScriptId (items : List Report) : Option Int :=
  match items with
  | [] => none
  | r :: _ => scriptIdOf (execOf r)

/-! ### Association-list (JS object) lemmas -/

theorem lookupES_setES_self (m : List (String × Int)) (k : String) (v : Int) :
    lookupES (setES m k v) k = some v := by
  induction m with
  | nil => simp [setES, lookupES]
  | cons p rest ih =>
    obtain ⟨k', v'⟩ := p
    by_cases h : k' = k <;> simp [setES, lookupES, h, ih]

theorem lookupES_setES_ne (m : List (String × Int)) (k k' : String) (v : Int)
    (h : k ≠ k') : lookupES (setES m k v) k' = lookupES m k' := by
  induction m with
  | nil => simp [setES, lookupES, h]
  | cons p rest ih =>
    obtain ⟨k'', v''⟩ := p
    by_cases h2 : k'' = k
    · subst h2
      simp [setES, lookupES, h]
    · simp [setES, lookupES, h2, ih]

theorem getES_mergeES (es m : List (String × Int)) (k : String) :
    getES (mergeES m es) k = getES m k + sumAtKey es k := by
  induction es generalizing m with
  | nil => simp [mergeES, sumAtKey]
  | cons p rest ih =>
    obtain ⟨k', v⟩ := p
    have hstep : mergeES m ((k', v) :: rest) = mergeES (setES m k' (getES m k' + v)) rest := by
      simp [mergeES]
    rw [hstep, ih]
    by_cases h : k' = k
    · subst h
      simp [getES, lookupES_setES_self, sumAtKey]
      ring
    · simp [getES, lookupES_setES_ne _ _ _ _ h, sumAtKey, h]

theorem sumAtKey_eq_zero (es : List (String × Int)) (k : String)
    (h : k ∉ es.map Prod.fst) : sumAtKey es k = 0 := by
  induction es with
  | nil => simp [sumAtKey]
  | cons p rest ih =>
    rw [List.map_cons, List.mem_cons] at h
    push_neg at h
    have hne : ¬ (p.1 = k) := fun hk => h.1 hk.symm
    have hskip : sumAtKey (p :: rest) k = sumAtKey rest k := by
      simp [sumAtKey, List.filter_cons, hne]
    rw [hskip]
    exact ih h.2

theorem getES_eq_sumAtKey (es : List (String × Int)) (k : String)
    (h : (es.map Prod.fst).Nodup) : getES es k = sumAtKey es k := by
  induction es with
  | nil => simp [getES, lookupES, sumAtKey]
  | cons p rest ih =>
    obtain ⟨k', v⟩ := p
    rw [List.map_cons, List.nodup_cons] at h
    by_cases hk : k' = k
    · subst hk
      have hz : sumAtKey rest k' = 0 := sumAtKey_eq_zero rest k' h.1
      have hhead : sumAtKey ((k', v) :: rest) k' = v + sumAtKey rest k' := by
        simp [sumAtKey, List.filter_cons]
      rw [hhead, hz]
      simp [getES, lookupES]
    · have hskip : sumAtKey ((k', v) :: rest) k = sumAtKey rest k := by
        simp [sumAtKey, List.filter_cons, hk]
      have hlook : getES ((k', v) :: rest) k = getES rest k := by
        simp [getES, lookupES, hk]
      rw [hskip, hlook]
      exact ih h.2

/-! ### What one loop step does to each accumulator -/

theorem stepMetrics_scriptId (st : AggState) (r : Report) :
    (stepMetrics st r).scriptId = st.scriptId := rfl

theorem stepMetrics_firstExecution (st : AggState) (r : Report) :
    (stepMetrics st r).firstExecution = st.firstExecution := rfl

theorem stepMetrics_processed (st : AggState) (r : Report) :
    (stepMetrics st r).totalItemsProcessed = st.totalItemsProcessed + procOf r := rfl

theorem stepMetrics_new (st : AggState) (r : Report) :
    (stepMetrics st r).totalItemsNew = st.totalItemsNew + newOf r := rfl

theorem stepMetrics_dup (st : AggState) (r : Report) :
    (stepMetrics st r).totalItemsDuplicates = st.totalItemsDuplicates + dupOf r := rfl

theorem stepMetrics_upd (st : AggState) (r : Report) :
    (stepMetrics st r).totalItemsUpdated = st.totalItemsUpdated + updOf r := rfl

theorem stepMetrics_hasFailures (st : AggState) (r : Report) :
    (stepMetrics st r).hasFailures = (st.hasFailures || decide (failedOf r > 0)) := rfl

theorem stepMetrics_allItems (st : AggState) (r : Report) :
    (stepMetrics st r).allTransactionItems = st.allTransactionItems ++ itemsOf r := rfl

theorem stepMetrics_mergedES (st : AggState) (r : Report) :
    (stepMetrics st r).mergedEventSummary = mergeES st.mergedEventSummary (esEntriesOf r) := by
  cases h : (summaryOf r).event_summary <;>
    simp [stepMetrics, esEntriesOf, h, mergeES]

/-! ### The loop over a report list -/

theorem foldl_scriptId (l : List Report) (st : AggState) :
    (l.foldl stepMetrics st).scriptId = st.scriptId := by
  induction l generalizing st with
  | nil => rfl
  | cons r rest ih => simp [List.foldl_cons, ih, stepMetrics_scriptId]

theorem foldl_firstExecution (l : List Report) (st : AggState) :
    (l.foldl stepMetrics st).firstExecution = st.firstExecution := by
  induction l generalizing st with
  | nil => rfl
  | cons r rest ih => simp [List.foldl_cons, ih, stepMetrics_firstExecution]

theorem foldl_processed (l : List Report) (st : AggState) :
    (l.foldl stepMetrics st).totalItemsProcessed
      = st.totalItemsProcessed + (l.map procOf).sum := by
  induction l generalizing st with
  | nil => simp
  | cons r rest ih =>
    simp [List.foldl_cons, ih, stepMetrics_processed, add_assoc]

theorem foldl_new (l : List Report) (st : AggState) :
    (l.foldl stepMetrics st).totalItemsNew = st.totalItemsNew + (l.map newOf).sum := by
  induction l generalizing st with
  | nil => simp
  | cons r rest ih =>
    simp [List.foldl_cons, ih, stepMetrics_new, add_assoc]

theorem foldl_dup (l : List Report) (st : AggState) :
    (l.foldl stepMetrics st).totalItemsDuplicates
      = st.totalItemsDuplicates + (l.map dupOf).sum := by
  induction l generalizing st with
  | nil => simp
  | cons r rest ih =>
    simp [List.foldl_cons, ih, stepMetrics_dup, add_assoc]

theorem foldl_upd (l : List Report) (st : AggState) :
    (l.foldl stepMetrics st).totalItemsUpdated
      = st.totalItemsUpdated + (l.map updOf).sum := by
  induction l generalizing st with
  | nil => simp
  | cons r rest ih =>
    simp [List.foldl_cons, ih, stepMetrics_upd, add_assoc]

theorem foldl_hasFailures (l : List Report) (st : AggState) :
    (l.foldl stepMetrics st).hasFailures
      = (st.hasFailures || l.any (fun r => decide (failedOf r > 0))) := by
  induction l generalizing st with
  | nil => simp
  | cons r rest ih =>
    simp [List.foldl_cons, ih, stepMetrics_hasFailures, Bool.or_assoc]

theorem foldl_allItems (l : List Report) (st : AggState) :
    (l.foldl stepMetrics st).allTransactionItems
      = st.allTransactionItems ++ (l.map itemsOf).flatten := by
  induction l generalizing st with
  | nil => simp
  | cons r rest ih =>
    simp [List.foldl_cons, ih, stepMetrics_allItems, List.append_assoc]

theorem foldl_getES (l : List Report) (st : AggState) (k : String) :
    getES (l.foldl stepMetrics st).mergedEventSummary k
      = getES st.mergedEventSummary k + (l.map (fun r => sumAtKey (esEntriesOf r) k)).sum := by
  induction l generalizing st with
  | nil => simp
  | cons r rest ih =>
    rw [List.foldl_cons, ih, stepMetrics_mergedES, getES_mergeES]
    simp [add_assoc]

/-! ### The loop's final state, from the input reports -/

theorem aggregate_scriptId (items : List Report) :
    (aggregate items).scriptId = firstScriptId items := by
  cases items with
  | nil => rfl
  | cons r rest =>
    simp [aggregate, firstScriptId, foldl_scriptId, stepMetrics_scriptId]

theorem aggregate_firstExecution (items : List Report) :
    (aggregate items).firstExecution
      = (match items with | [] => none | r :: _ => some (execOf r)) := by
  cases items with
  | nil => rfl
  | cons r rest =>
    simp [aggregate, foldl_firstExecution, stepMetrics_firstExecution]

theorem aggregate_processed (items : List Report) :
    (aggregate items).totalItemsProcessed = (items.map procOf).sum := by
  cases items with
  | nil => simp [aggregate, initState]
  | cons r rest =>
    simp [aggregate, foldl_processed, stepMetrics_processed, initState]

theorem aggregate_new (items : List Report) :
    (aggregate items).totalItemsNew = (items.map newOf).sum := by
  cases items with
  | nil => simp [aggregate, initState]
  | cons r rest =>
    simp [aggregate, foldl_new, stepMetrics_new, initState]

theorem aggregate_dup (items : List Report) :
    (aggregate items).totalItemsDuplicates = (items.map dupOf).sum := by
  cases items with
  | nil => simp [aggregate, initState]
  | cons r rest =>
    simp [aggregate, foldl_dup, stepMetrics_dup, initState]

theorem aggregate_upd (items : List Report) :
    (aggregate items).totalItemsUpdated = (items.map updOf).sum := by
  cases items with
  | nil => simp [aggregate, initState]
  | cons r rest =>
    simp [aggregate, foldl_upd, stepMetrics_upd, initState]

theorem aggregate_hasFailures (items : List Report) :
    (aggregate items).hasFailures = items.any (fun r => decide (failedOf r > 0)) := by
  cases items with
  | nil => rfl
  | cons r rest =>
    simp [aggregate, foldl_hasFailures, stepMetrics_hasFailures, initState]

theorem aggregate_allItems (items : List Report) :
    (aggregate items).allTransactionItems = (items.map itemsOf).flatten := by
  cases items with
  | nil => rfl
  | cons r rest =>
    simp [aggregate, foldl_allItems, stepMetrics_allItems, initState]

theorem aggregate_getES (items : List Report) (k : String) :
    getES (aggregate items).mergedEventSummary k
      = (items.map (fun r => sumAtKey (esEntriesOf r) k)).sum := by
  cases items with
  | nil => simp [aggregate, initState, getES, lookupES]
  | cons r rest =>
    rw [aggregate]
    rw [foldl_getES, stepMetrics_mergedES, getES_mergeES]
    have : getES ({ initState with
        firstExecution := some (execOf r),
        scriptId := scriptIdOf (execOf r) } : AggState).mergedEventSummary k = 0 := by
      simp [initState, getES, lookupES]
    simp [this]

/-! ### Unfolding `execute` -/

theorem execute_rowsSent (cfg : NodeConfig) (env : EnvInfo) (sres : Except String Unit)
    (items : List Report) :
    (execute cfg env sres items).rowsSent =
      (match (aggregate items).scriptId with
       | none => []
       | some sid =>
         if sid = 0 then [] else [buildLogData cfg env (aggregate items) sid]) := by
  cases h : (aggregate items).scriptId with
  | none => by_cases hf : cfg.options.failOnError <;> simp [execute, h, hf]
  | some sid =>
    by_cases h0 : sid = 0
    · cases sres <;> by_cases hf : cfg.options.failOnError <;> simp [execute, h, h0, hf]
    · cases sres <;> by_cases hf : cfg.options.failOnError <;> simp [execute, h, h0, hf]

theorem execute_outcome (cfg : NodeConfig) (env : EnvInfo) (sres : Except String Unit)
    (items : List Report) :
    (execute cfg env sres items).outcome =
      (match (aggregate items).scriptId with
       | none =>
         if cfg.options.failOnError then .error .missingId
         else .ok (.failure .missingId none)
       | some sid =>
         if sid = 0 then
           (if cfg.options.failOnError then .error .missingId
            else .ok (.failure .missingId (some sid)))
         else
           match sres with
           | .ok _ =>
             .ok (.success ⟨env.now, sid, items.length, buildLogData cfg env (aggregate items) sid⟩)
           | .error m =>
             if cfg.options.failOnError then .error (.sinkError m)
             else .ok (.failure (.sinkError m) (some sid))) := by
  cases h : (aggregate items).scriptId with
  | none => by_cases hf : cfg.options.failOnError <;> simp [execute, h, hf]
  | some sid =>
    by_cases h0 : sid = 0
    · cases sres <;> by_cases hf : cfg.options.failOnError <;> simp [execute, h, h0, hf]
    · cases sres <;> by_cases hf : cfg.options.failOnError <;> simp [execute, h, h0, hf]

/-! ### Spec-side descriptions used by the claims -/

/-- The JS truthiness test the code applies to the parsed identifier:
`null`/`NaN` and `0` are falsy. -/
def scriptIdTruthy : Option Int → Bool
  | none => false
  | some n => !(n == 0)

/-- Whether an invocation fails with the missing-identifier error, either as
a raised `NodeOperationError` or as a failure-shaped result. -/
def isMissingIdFailure (o : ExecOut) : Bool :=
  match o.outcome with
  | .error .missingId => true
  | .ok (.failure .missingId _) => true
  | .error (.sinkError _) => false
  | .ok (.failure (.sinkError _) _) => false
  | .ok (.success _) => false

/-- The error, if any, that an invocation on these inputs runs into:
the missing-identifier error when the first report's parsed identifier is
falsy, otherwise the sink's failure when the insert fails. -/
def errOf (sres : Except String Unit) (items : List Report) : Option NodeError :=
  match firstScriptId items with
  | none => some .missingId
  | some sid =>
    if sid = 0 then some .missingId
    else
      match sres with
      | .ok _ => none
      | .error m => some (.sinkError m)

/-- Modelled from the spec wording of the amended mode-resolution claim:
the caller's setting when it is not "auto"; otherwise the first report's
`execution.mode`, with `"regular"` replacing an absent or empty field. -/
def specResolvedMode (setting : String) (firstMode : Option String) : String :=
  if setting = "auto" then
    match firstMode with
    | none => "regular"
    | some m => if m = "" then "regular" else m
  else setting

theorem resolveMode_some (setting : String) (fe : IExecution) :
    resolveMode setting (some fe) = specResolvedMode setting fe.mode := by
  by_cases h : setting = "auto"
  · cases hm : fe.mode <;> simp [resolveMode, specResolvedMode, jsOr, h, hm]
  · simp [resolveMode, specResolvedMode, h]

/-! ### Concrete fixtures -/

/-- A configuration with both options off (their defaults). -/
def cfgDefault : NodeConfig := ⟨"db", "workflow_logs", "auto", ⟨false, false⟩⟩

/-- The same configuration with `failOnError` on. -/
def cfgFailLoud : NodeConfig := ⟨"db", "workflow_logs", "auto", ⟨true, false⟩⟩

/-- A fixed host environment. -/
def envDefault : EnvInfo := ⟨"manual", some "My Workflow", "2026-10-12T00:00:00.000Z"⟩

/-- A report carrying only `execution.script_id`. -/
def reportWithId (s : String) : Report := ⟨some ⟨none, some s⟩, none, none⟩

/-- A report whose fields are all missing. -/
def emptyReport : Report := ⟨none, none, none⟩

/-- First report of the mode counterexample: `execution.mode` present but `""`. -/
def reportEmptyMode : Report := ⟨some ⟨some "", some "5"⟩, none, none⟩

/-- A report carrying only `details.sent_items.items`. -/
def reportItems (xs : List Json) : Report := ⟨none, none, some ⟨some ⟨some xs⟩⟩⟩

/-- Event-summary fixtures for the permutation claim. -/
def rEventA : Report :=
  ⟨some ⟨none, some "7"⟩, some ⟨some 10, some 3, none, none, some [("sent", 2), ("done", 1)], none⟩, none⟩

/-- Second event-summary fixture. -/
def rEventB : Report :=
  ⟨none, some ⟨some 5, none, some 2, none, some [("sent", 4)], none⟩, none⟩

/-- Third event-summary fixture. -/
def rEventC : Report :=
  ⟨none, some ⟨none, none, none, some 1, some [("done", 5), ("new", 1)], none⟩, none⟩

/-- The fixture list and a permutation of it holding the head fixed. -/
def rsPermA : List Report := [rEventA, rEventB, rEventC]

/-- `rsPermA` with its second and third reports swapped. -/
def rsPermB : List Report := [rEventA, rEventC, rEventB]

/-- The row produced by a run whose only report carries identifier "7". -/
def rowW : ILogData := buildLogData cfgDefault envDefault (aggregate [reportWithId "7"]) 7

/-- The success json of that run. -/
def successW : SuccessOut := ⟨envDefault.now, 7, 1, rowW⟩

/-! ### The claims -/

/-- C1: for every report sequence, the summary's `items_processed` equals the
sum over all reports of `summary.total_input` (missing counted 0), and likewise
`items_new` / `items_duplicates` / `items_updated` sum `new_items` /
`exact_duplicates` / `updated_items`. -/
theorem c1_totals_are_componentwise_sums (cfg : NodeConfig) (env : EnvInfo) (sid : Int)
    (items : List Report) :
    (buildLogData cfg env (aggregate items) sid).items_processed = (items.map procOf).sum ∧
    (buildLogData cfg env (aggregate items) sid).items_new = (items.map newOf).sum ∧
    (buildLogData cfg env (aggregate items) sid).items_duplicates = (items.map dupOf).sum ∧
    (buildLogData cfg env (aggregate items) sid).items_updated = (items.map updOf).sum := by
  refine ⟨?_, ?_, ?_, ?_⟩ <;>
    simp [buildLogData, aggregate_processed, aggregate_new, aggregate_dup, aggregate_upd]

/-- C2: `hasFailures` is true iff at least one report has `failed_items > 0`,
and every row's computed `status` is `"failed"` when `hasFailures` holds and
`"success"` otherwise. -/
theorem c2_hasFailures_iff_status (cfg : NodeConfig) (env : EnvInfo)
    (sres : Except String Unit) (items : List Report) :
    ((aggregate items).hasFailures = true ↔ ∃ r ∈ items, failedOf r > 0) ∧
    (((execute cfg env sres items).rowsSent.map ILogData.status).all
      (fun s => s == (if (aggregate items).hasFailures then "failed" else "success"))) = true := by
  constructor
  · rw [aggregate_hasFailures, List.any_eq_true]
    simp
  · rw [execute_rowsSent]
    cases h : (aggregate items).scriptId with
    | none => simp
    | some sid =>
      by_cases h0 : sid = 0
      · simp [h0]
      · simp [h0, buildLogData]

/-- C6: `allItems` is the concatenation, in report order, of each report's
`details.sent_items.items` (missing treated as empty), preserving both report
order and in-report item order; in particular `[a,b]` then `[c]` gives
`[a,b,c]`. -/
theorem c6_allItems_is_ordered_concat (items : List Report) :
    (aggregate items).allTransactionItems = (items.map itemsOf).flatten ∧
    (aggregate [reportItems [Json.str "a", Json.str "b"], reportItems [Json.str "c"]]).allTransactionItems
      = [Json.str "a", Json.str "b", Json.str "c"] := by
  refine ⟨aggregate_allItems items, ?_⟩
  rw [aggregate_allItems]
  rfl

/-- C9: a report with every optional field missing contributes 0 to each
total, no event counts and no items, leaves `hasFailures` unchanged, and the
fold step on it returns the state unchanged (so it cannot throw); appending
such a report to any non-empty run leaves the whole aggregation unchanged. -/
theorem c9_all_missing_report_is_neutral :
    (∀ st : AggState, stepMetrics st emptyReport = st) ∧
    (∀ (r : Report) (rest : List Report),
       aggregate (r :: (rest ++ [emptyReport])) = aggregate (r :: rest)) := by
  have hstep : ∀ st : AggState, stepMetrics st emptyReport = st := by
    intro st
    cases st
    simp [stepMetrics, summaryOf, detailsOf, emptyReport, mergeES]
  refine ⟨hstep, fun r rest => ?_⟩
  simp [aggregate, List.foldl_append, hstep]

/-- C5: permuting the report order (holding the first report fixed) leaves the
merged `eventSummary` mapping and the four numeric totals unchanged, and every
key's final count is the element-wise sum of that key's per-report counts, a
report lacking the key contributing 0. -/
theorem c5_eventSummary_merge_is_permutation_invariant (rs rs' : List Report)
    (hperm : rs.Perm rs') (_hhead : rs.head? = rs'.head?)
    (hwf : ∀ r ∈ rs, ((esEntriesOf r).map Prod.fst).Nodup) :
    (∀ k, getES (aggregate rs).mergedEventSummary k
            = getES (aggregate rs').mergedEventSummary k) ∧
    ((aggregate rs).totalItemsProcessed = (aggregate rs').totalItemsProcessed ∧
     (aggregate rs).totalItemsNew = (aggregate rs').totalItemsNew ∧
     (aggregate rs).totalItemsDuplicates = (aggregate rs').totalItemsDuplicates ∧
     (aggregate rs).totalItemsUpdated = (aggregate rs').totalItemsUpdated) ∧
    (∀ k, getES (aggregate rs).mergedEventSummary k
            = (rs.map (fun r => reportES r k)).sum) := by
  refine ⟨fun k => ?_, ⟨?_, ?_, ?_, ?_⟩, fun k => ?_⟩
  · rw [aggregate_getES, aggregate_getES]
    exact (hperm.map _).sum_eq
  · rw [aggregate_processed, aggregate_processed]
    exact (hperm.map _).sum_eq
  · rw [aggregate_new, aggregate_new]
    exact (hperm.map _).sum_eq
  · rw [aggregate_dup, aggregate_dup]
    exact (hperm.map _).sum_eq
  · rw [aggregate_upd, aggregate_upd]
    exact (hperm.map _).sum_eq
  · rw [aggregate_getES]
    have hmap : rs.map (fun r => sumAtKey (esEntriesOf r) k)
        = rs.map (fun r => reportES r k) :=
      List.map_congr_left (fun r hr => (getES_eq_sumAtKey _ _ (hwf r hr)).symm)
    rw [hmap]

/-- Witness for C5 at concrete permuted fixture lists. -/
theorem c5_witness :
    getES (aggregate rsPermA).mergedEventSummary "sent"
      = getES (aggregate rsPermB).mergedEventSummary "sent" ∧
    (aggregate rsPermA).totalItemsProcessed = (aggregate rsPermB).totalItemsProcessed ∧
    getES (aggregate rsPermA).mergedEventSummary "done"
      = (rsPermA.map (fun r => reportES r "done")).sum := by
  have h := c5_eventSummary_merge_is_permutation_invariant rsPermA rsPermB
    (List.Perm.cons rEventA (List.Perm.swap rEventC rEventB []))
    rfl (by decide)
  exact ⟨h.1 "sent", h.2.1.1, h.2.2 "done"⟩

/-- C3 counterexample: `"0"` is a parseable `execution.runIdentifier`, yet the
invocation still fails with the missing-identifier error (the code tests the
parsed value for JS truthiness, and `0` is falsy). -/
theorem c3_counterexample_zero_parseable_yet_fails :
    parseIntJS "0" = some 0 ∧
    (execOf (reportWithId "0")).script_id = some "0" ∧
    isMissingIdFailure (execute cfgDefault envDefault (Except.ok ()) [reportWithId "0"]) = true ∧
    (execute cfgDefault envDefault (Except.ok ()) [reportWithId "0"]).rowsSent = [] := by
  decide

/-- C3 (amended): the invocation fails with the missing-identifier error
exactly when the first report's parsed identifier is falsy — absent,
non-numeric, or parsing to 0; an empty report sequence fails this way, and in
every such failure no row is handed to the sink. -/
theorem c3_missing_identifier_gate (cfg : NodeConfig) (env : EnvInfo)
    (sres : Except String Unit) (items : List Report) :
    (isMissingIdFailure (execute cfg env sres items) = true
       ↔ scriptIdTruthy (firstScriptId items) = false) ∧
    (items = [] → isMissingIdFailure (execute cfg env sres items) = true) ∧
    (isMissingIdFailure (execute cfg env sres items) = true →
       (execute cfg env sres items).rowsSent = []) := by
  have hout := execute_outcome cfg env sres items
  have hrows := execute_rowsSent cfg env sres items
  rw [aggregate_scriptId] at hout hrows
  have hmain : isMissingIdFailure (execute cfg env sres items)
      = !(scriptIdTruthy (firstScriptId items)) := by
    cases hfs : firstScriptId items with
    | none =>
      rw [hfs] at hout
      by_cases hf : cfg.options.failOnError <;>
        simp [isMissingIdFailure, hout, hf, scriptIdTruthy]
    | some sid =>
      rw [hfs] at hout
      by_cases h0 : sid = 0
      · subst h0
        by_cases hf : cfg.options.failOnError <;>
          simp [isMissingIdFailure, hout, hf, scriptIdTruthy]
      · cases sres with
        | ok u => simp [isMissingIdFailure, hout, h0, scriptIdTruthy]
        | error m =>
          by_cases hf : cfg.options.failOnError <;>
            simp [isMissingIdFailure, hout, h0, hf, scriptIdTruthy]
  refine ⟨?_, ?_, ?_⟩
  · rw [hmain]
    cases scriptIdTruthy (firstScriptId items) <;> simp
  · intro he
    subst he
    simp [hmain, firstScriptId, scriptIdTruthy]
  · intro hfail
    rw [hmain] at hfail
    rw [hrows]
    cases hfs : firstScriptId items with
    | none => simp
    | some sid =>
      rw [hfs] at hfail
      have h0 : sid = 0 := by simpa [scriptIdTruthy] using hfail
      simp [h0]

/-- Witness for C3 at the empty report sequence. -/
theorem c3_witness :
    isMissingIdFailure (execute cfgDefault envDefault (Except.ok ()) []) = true ∧
    (execute cfgDefault envDefault (Except.ok ()) []).rowsSent = [] := by
  have h := c3_missing_identifier_gate cfgDefault envDefault (Except.ok ()) []
  have h1 := h.2.1 rfl
  exact ⟨h1, h.2.2 h1⟩

/-- C4 counterexample: with setting "auto" and a first report whose
`execution.mode` is present but the empty string, the resolved mode is
`"regular"`, not the report's mode (JS `||` also replaces `""`). -/
theorem c4_counterexample_empty_mode_string :
    (execOf reportEmptyMode).mode = some "" ∧
    ((execute cfgDefault envDefault (Except.ok ()) [reportEmptyMode]).rowsSent.map
        ILogData.execution_mode) = ["regular"] ∧
    ("regular" : String) ≠ "" := by
  decide

/-- C4 (amended): for non-empty report sequences the resolved mode is the
caller's setting when it is not "auto", and otherwise the first report's
`execution.mode` with `"regular"` replacing an absent or empty field; in
particular setting "auto", identifier "42" and absent `execution.mode`
resolve to identifier 42 and mode "regular". -/
theorem c4_mode_resolution (cfg : NodeConfig) (env : EnvInfo)
    (sres : Except String Unit) (r : Report) (rest : List Report) :
    (((execute cfg env sres (r :: rest)).rowsSent.map ILogData.execution_mode).all
       (fun m => m == specResolvedMode cfg.executionMode (execOf r).mode)) = true ∧
    ((execOf r).script_id = some "42" → cfg.executionMode = "auto" →
       (execOf r).mode = none →
       (execute cfg env sres (r :: rest)).rowsSent.map (fun d => (d.script_id, d.execution_mode))
         = [((42 : Int), "regular")]) := by
  have hrows := execute_rowsSent cfg env sres (r :: rest)
  rw [aggregate_scriptId] at hrows
  have hfe : (aggregate (r :: rest)).firstExecution = some (execOf r) :=
    aggregate_firstExecution (r :: rest)
  constructor
  · rw [hrows]
    cases hfs : firstScriptId (r :: rest) with
    | none => simp
    | some sid =>
      by_cases h0 : sid = 0
      · simp [h0]
      · simp [h0, buildLogData, hfe, resolveMode_some]
  · intro hsid hauto hmode
    have h42 : parseIntJS "42" = some 42 := by decide
    have hfs : firstScriptId (r :: rest) = some 42 := by
      simp [firstScriptId, scriptIdOf, hsid, h42]
    rw [hrows, hfs]
    simp [buildLogData, hfe, resolveMode_some, specResolvedMode, hauto, hmode]

/-- Witness for C4 at a concrete "auto" run with identifier "42". -/
theorem c4_witness :
    (execute cfgDefault envDefault (Except.ok ()) [reportWithId "42"]).rowsSent.map
        (fun d => (d.script_id, d.execution_mode)) = [((42 : Int), "regular")] :=
  (c4_mode_resolution cfgDefault envDefault (Except.ok ()) (reportWithId "42") []).2 rfl rfl rfl

/-- C7: when `failOnError` is false the invocation never raises, and on any
error (missing identifier or sink failure) it returns the failure-shaped
result carrying the error and the identifier-or-null; when `failOnError` is
true the error is propagated to the caller. -/
theorem c7_failOnError_controls_raising (cfg : NodeConfig) (env : EnvInfo)
    (sres : Except String Unit) (items : List Report) :
    (cfg.options.failOnError = false →
       ∀ e : NodeError, (execute cfg env sres items).outcome ≠ Except.error e) ∧
    (cfg.options.failOnError = false → ∀ e : NodeError, errOf sres items = some e →
       (execute cfg env sres items).outcome
         = Except.ok (.failure e (firstScriptId items))) ∧
    (cfg.options.failOnError = true → ∀ e : NodeError, errOf sres items = some e →
       (execute cfg env sres items).outcome = Except.error e) := by
  have hout := execute_outcome cfg env sres items
  rw [aggregate_scriptId] at hout
  refine ⟨fun hf e => ?_, fun hf e he => ?_, fun hf e he => ?_⟩
  · rw [hout]
    cases hfs : firstScriptId items with
    | none => simp [hf]
    | some sid =>
      by_cases h0 : sid = 0
      · simp [h0, hf]
      · cases sres <;> simp [h0, hf]
  · rw [hout]
    unfold errOf at he
    cases hfs : firstScriptId items with
    | none =>
      rw [hfs] at he
      simp at he
      simp [hf, ← he]
    | some sid =>
      rw [hfs] at he
      by_cases h0 : sid = 0
      · simp [h0] at he
        simp [h0, hf, ← he]
      · cases sres with
        | ok u => simp [h0] at he
        | error m =>
          simp [h0] at he
          simp [h0, hf, ← he]
  · rw [hout]
    unfold errOf at he
    cases hfs : firstScriptId items with
    | none =>
      rw [hfs] at he
      simp at he
      simp [hf, ← he]
    | some sid =>
      rw [hfs] at he
      by_cases h0 : sid = 0
      · simp [h0] at he
        simp [h0, hf, ← he]
      · cases sres with
        | ok u => simp [h0] at he
        | error m =>
          simp [h0] at he
          simp [h0, hf, ← he]

/-- Witness for C7: one sink failure recovered into a failure-shaped result,
and the same sink failure propagated under `failOnError`. -/
theorem c7_witness :
    (execute cfgDefault envDefault (Except.error "boom") [reportWithId "7"]).outcome
      = Except.ok (.failure (.sinkError "boom") (some 7)) ∧
    (execute cfgFailLoud envDefault (Except.error "boom") [reportWithId "7"]).outcome
      = Except.error (.sinkError "boom") := by
  constructor
  · have h := (c7_failOnError_controls_raising cfgDefault envDefault
      (Except.error "boom") [reportWithId "7"]).2.1 rfl (.sinkError "boom") (by decide)
    exact h.trans (by decide)
  · exact (c7_failOnError_controls_raising cfgFailLoud envDefault
      (Except.error "boom") [reportWithId "7"]).2.2 rfl (.sinkError "boom") (by decide)

/-- C8: every row handed to the sink binds exactly 11 parameters, in the fixed
column order of the INSERT statement, with `event_summary` and `full_details`
being JSON serializations of the merged event summary and the collected items. -/
theorem c8_sink_row_shape (cfg : NodeConfig) (env : EnvInfo) (sres : Except String Unit)
    (items : List Report) (d : ILogData)
    (hd : d ∈ (execute cfg env sres items).rowsSent) :
    insertRowParams d =
      [Cell.int d.script_id, Cell.str d.execution_mode, Cell.str d.execution_type,
       Cell.str d.workflow_name, Cell.str d.status, Cell.int d.items_processed,
       Cell.int d.items_new, Cell.int d.items_duplicates, Cell.int d.items_updated,
       Cell.str d.event_summary, Cell.str d.full_details] ∧
    (insertRowParams d).length = 11 ∧
    insertColumns =
      ["script_id", "execution_mode", "execution_type", "workflow_name", "status",
       "items_processed", "items_new", "items_duplicates", "items_updated",
       "event_summary", "full_details"] ∧
    d.event_summary = Json.stringify
      (Json.obj ((aggregate items).mergedEventSummary.map (fun p => (p.1, Json.num p.2)))) ∧
    d.full_details = Json.stringify (Json.arr (aggregate items).allTransactionItems) := by
  rw [execute_rowsSent] at hd
  obtain ⟨sid, rfl⟩ : ∃ sid, d = buildLogData cfg env (aggregate items) sid := by
    cases h : (aggregate items).scriptId with
    | none =>
      rw [h] at hd
      simp at hd
    | some sid =>
      rw [h] at hd
      by_cases h0 : sid = 0
      · simp [h0] at hd
      · simp [h0] at hd
        exact ⟨sid, hd⟩
  exact ⟨rfl, rfl, rfl, rfl, rfl⟩

/-- Witness for C8 at the row of a concrete successful run. -/
theorem c8_witness :
    (insertRowParams rowW).length = 11 ∧
    rowW.full_details
      = Json.stringify (Json.arr (aggregate [reportWithId "7"]).allTransactionItems) := by
  have hd : rowW ∈ (execute cfgDefault envDefault (Except.ok ()) [reportWithId "7"]).rowsSent := by
    decide
  have h := c8_sink_row_shape cfgDefault envDefault (Except.ok ()) [reportWithId "7"] rowW hd
  exact ⟨h.2.1, h.2.2.2.2⟩

/-- C10: a first report whose identifier parses to 0 fails with the
missing-identifier error and writes no row, and every successfully returned
result carries a nonzero identifier. -/
theorem c10_zero_identifier_rejected (cfg : NodeConfig) (env : EnvInfo)
    (sres : Except String Unit) :
    (∀ (r : Report) (rest : List Report), scriptIdOf (execOf r) = some 0 →
       isMissingIdFailure (execute cfg env sres (r :: rest)) = true ∧
       (execute cfg env sres (r :: rest)).rowsSent = []) ∧
    (∀ (items : List Report) (s : SuccessOut),
       (execute cfg env sres items).outcome = Except.ok (.success s) →
       s.script_id ≠ 0) := by
  constructor
  · intro r rest hr
    have hout := execute_outcome cfg env sres (r :: rest)
    have hrows := execute_rowsSent cfg env sres (r :: rest)
    rw [aggregate_scriptId] at hout hrows
    have hfs : firstScriptId (r :: rest) = some 0 := by simp [firstScriptId, hr]
    rw [hfs] at hout hrows
    constructor
    · by_cases hf : cfg.options.failOnError <;> simp [isMissingIdFailure, hout, hf]
    · simpa using hrows
  · intro items s hs
    have hout := execute_outcome cfg env sres items
    rw [aggregate_scriptId] at hout
    rw [hout] at hs
    cases hfs : firstScriptId items with
    | none =>
      rw [hfs] at hs
      by_cases hf : cfg.options.failOnError <;> simp [hf] at hs
    | some sid =>
      rw [hfs] at hs
      by_cases h0 : sid = 0
      · by_cases hf : cfg.options.failOnError <;> simp [h0, hf] at hs
      · cases sres with
        | error m =>
          by_cases hf : cfg.options.failOnError <;> simp [h0, hf] at hs
        | ok u =>
          simp [h0] at hs
          intro hc
          apply h0
          rw [← hs] at hc
          exact hc

/-- Witness for C10: the "0" identifier run fails and writes nothing, and a
successful run's identifier is nonzero. -/
theorem c10_witness :
    isMissingIdFailure (execute cfgDefault envDefault (Except.ok ()) [reportWithId "0"]) = true ∧
    (execute cfgDefault envDefault (Except.ok ()) [reportWithId "0"]).rowsSent = [] ∧
    successW.script_id ≠ 0 := by
  have h1 := (c10_zero_identifier_rejected cfgDefault envDefault (Except.ok ())).1
      (reportWithId "0") [] (by decide)
  have h2 := (c10_zero_identifier_rejected cfgDefault envDefault (Except.ok ())).2
      [reportWithId "7"] successW (by decide)
  exact ⟨h1.1, h1.2, h2⟩
